import Mathlib

/-!
Verification of the task-manager backend (`backend/tasks`).

The Python service layer (`services.py`), repository layer
(`repositories.py`) and the exception-to-HTTP-status mapping of the views
(`views.py`, `BaseTaskView.handle_service_exceptions`) are embedded as pure
Lean functions over an explicit store state.  Strings are modelled as
`List Char`; Python's `str.strip()` is modelled by `strip` below; Django
exceptions (`ValidationError`, `PermissionDenied`) become the constructors
of `ServiceError`; a raising call becomes an `Except` result.
-/

namespace TaskManager

/-- Whitespace characters removed by Python's `str.strip()`
(space, tab, newline, carriage return, vertical tab, form feed). -/
def isPySpace (c : Char) : Bool :=
  c == ' ' || c == '\t' || c == '\n' || c == '\r' || c == '\x0B' || c == '\x0C'

/-- Left trim: drop leading whitespace, as in Python `lstrip()`. -/
def lstrip (s : List Char) : List Char := s.dropWhile isPySpace

/-- Right trim: drop trailing whitespace, as in Python `rstrip()`. -/
def rstrip (s : List Char) : List Char := (s.reverse.dropWhile isPySpace).reverse

/-- Python `str.strip()`: drop leading and trailing whitespace. -/
def strip (s : List Char) : List Char := rstrip (lstrip s)

/-- Modelled from the spec: `models.py` (the Task model) is not under the
sources; the fields follow spec section 3 (id, owner, title, description,
created_at).  The owner identity and the timestamp are opaque and modelled
as naturals.  The field holding the owner is named `user` as in the code. -/
structure Task where
  id : Nat
  user : Nat
  title : List Char
  description : List Char
  created_at : Nat
deriving DecidableEq

/-- Modelled from the spec: the persistence engine is an external
collaborator (spec section 1), "an abstract key-value/row store reachable by
id and by owner"; rows plus the auto-increment id counter. -/
structure Store where
  tasks : List Task
  nextId : Nat
deriving DecidableEq

/-- Django exceptions raised by the service layer:
`ValidationError` and `PermissionDenied` (`services.py`). -/
inductive ServiceError where
  | validationError (msg : String)
  | permissionDenied (msg : String)
deriving DecidableEq

/-- Spec section 7 failure-kind taxonomy, as far as the code realises it. -/
inductive ErrKind where
  | invalidInput
  | forbidden
deriving DecidableEq

/-- The failure kind of an exception: the exception class decides it. -/
def ServiceError.kind : ServiceError → ErrKind
  | .validationError _ => .invalidInput
  | .permissionDenied _ => .forbidden

/-- The HTTP status `BaseTaskView.handle_service_exceptions` (`views.py`
lines 29-50) maps each service exception to: `ValidationError` to 400,
`PermissionDenied` to 403. -/
def handleServiceExceptionsStatus : ServiceError → Nat
  | .validationError _ => 400
  | .permissionDenied _ => 403

/-- Modelled from the spec: section 7 maps the `NotFound` kind to HTTP 404,
so a failure is of the `NotFound` kind iff the API layer answers it
with 404. -/
def IsNotFoundKind (e : ServiceError) : Prop :=
  handleServiceExceptionsStatus e = 404

instance (e : ServiceError) : Decidable (IsNotFoundKind e) := by
  unfold IsNotFoundKind; infer_instance

/-- `TaskRepository.get_by_id` (`repositories.py` lines 51-56):
`Task.objects.get(id=task_id)`, `None` when absent. -/
def TaskRepository.get_by_id (s : Store) (task_id : Nat) : Option Task :=
  s.tasks.find? (fun t => t.id == task_id)

/-- Descending creation-time order used by `order_by('-created_at')`. -/
def byCreatedDesc (a b : Task) : Prop := b.created_at ≤ a.created_at

instance : DecidableRel byCreatedDesc := fun a b =>
  inferInstanceAs (Decidable (b.created_at ≤ a.created_at))

instance : IsTotal Task byCreatedDesc :=
  ⟨fun a b => Nat.le_total b.created_at a.created_at⟩

instance : IsTrans Task byCreatedDesc :=
  ⟨fun _ _ _ h1 h2 => Nat.le_trans h2 h1⟩

/-- `TaskRepository.get_by_user` (`repositories.py` lines 58-60):
`Task.objects.filter(user=user).order_by('-created_at')`.  The engine's
sort is modelled by insertion sort under `byCreatedDesc`. -/
def TaskRepository.get_by_user (s : Store) (user : Nat) : List Task :=
  List.insertionSort byCreatedDesc (s.tasks.filter (fun t => t.user == user))

/-- `TaskRepository.create` (`repositories.py` lines 62-68):
`Task.objects.create(user=..., title=..., description=...)`; the store
assigns the next id, and the engine stamps `created_at` with the clock
value `now` supplied by the environment. -/
def TaskRepository.create (s : Store) (now : Nat) (user : Nat)
    (title description : List Char) : Task × Store :=
  let t : Task :=
    { id := s.nextId, user := user, title := title,
      description := description, created_at := now }
  (t, { tasks := s.tasks ++ [t], nextId := s.nextId + 1 })

/-- `TaskRepository.update` (`repositories.py` lines 70-77): assign the
supplied fields on the object, `task.save()` rewrites the row with the
task's id, and the updated object is returned. -/
def TaskRepository.update (s : Store) (task : Task)
    (title? description? : Option (List Char)) : Task × Store :=
  let newTask : Task :=
    { task with title := title?.getD task.title,
                description := description?.getD task.description }
  (newTask,
   { s with tasks := s.tasks.map (fun t => if t.id == task.id then newTask else t) })

/-- `TaskRepository.delete` (`repositories.py` lines 79-81):
`task.delete()` removes the row with the task's id. -/
def TaskRepository.delete (s : Store) (task : Task) : Store :=
  { s with tasks := s.tasks.filter (fun t => !(t.id == task.id)) }

/-- `TaskValidationService.validate_task_data` (`services.py` lines 49-62),
branch for branch; Python string truthiness is emptiness. -/
def validate_task_data (title : List Char) (description : List Char) :
    Except ServiceError Unit :=
  if title.isEmpty || (strip title).isEmpty then
    .error (.validationError "El título es requerido")
  else if (strip title).length < 3 then
    .error (.validationError "El título debe tener al menos 3 caracteres")
  else if (strip title).length > 200 then
    .error (.validationError "El título no puede exceder 200 caracteres")
  else if !description.isEmpty && description.length > 1000 then
    .error (.validationError "La descripción no puede exceder 1000 caracteres")
  else
    .ok ()

/-- `TaskPermissionService.check_task_ownership` (`services.py`
lines 71-75). -/
def check_task_ownership (task : Task) (user : Nat) : Except ServiceError Unit :=
  if task.user != user then
    .error (.permissionDenied "No tienes permisos para acceder a esta tarea")
  else
    .ok ()

/-- `TaskService.create_task` (`services.py` lines 93-106): validate, then
store the stripped title and the stripped-or-empty description. -/
def TaskService.create_task (s : Store) (now : Nat) (user : Nat)
    (title : List Char) (description : List Char) :
    Except ServiceError (Task × Store) :=
  match validate_task_data title description with
  | .error e => .error e
  | .ok _ =>
      .ok (TaskRepository.create s now user (strip title)
             (if description.isEmpty then [] else strip description))

/-- `TaskService.get_user_tasks` (`services.py` lines 108-110): the
repository result is returned unmodified. -/
def TaskService.get_user_tasks (s : Store) (user : Nat) : List Task :=
  TaskRepository.get_by_user s user

/-- `TaskService.get_task_by_id` (`services.py` lines 112-125): look up,
raise `ValidationError("Tarea no encontrada")` when absent, then check
ownership. -/
def TaskService.get_task_by_id (s : Store) (task_id : Nat) (user : Nat) :
    Except ServiceError Task :=
  match TaskRepository.get_by_id s task_id with
  | none => .error (.validationError "Tarea no encontrada")
  | some task =>
      match check_task_ownership task user with
      | .error e => .error e
      | .ok _ => .ok task

/-- Python's `description or task.description` (`services.py` line 137):
`None` and the empty string are falsy, so both fall back to the stored
description. -/
def descOrStored (description? : Option (List Char)) (stored : List Char) :
    List Char :=
  match description? with
  | some d => if d.isEmpty then stored else d
  | none => stored

/-- `TaskService.update_task` (`services.py` lines 127-144): fetch with
ownership check; when a title is supplied, validate it against
`description or task.description`, then strip it; a supplied description
is stripped; the repository receives only the supplied fields. -/
def TaskService.update_task (s : Store) (task_id : Nat) (user : Nat)
    (title? description? : Option (List Char)) :
    Except ServiceError (Task × Store) :=
  match TaskService.get_task_by_id s task_id user with
  | .error e => .error e
  | .ok task =>
      match title? with
      | some title =>
          match validate_task_data title (descOrStored description? task.description) with
          | .error e => .error e
          | .ok _ =>
              .ok (TaskRepository.update s task (some (strip title))
                     (description?.map strip))
      | none =>
          .ok (TaskRepository.update s task none (description?.map strip))

/-- `TaskService.delete_task` (`services.py` lines 146-155): fetch with
ownership check, then delete. -/
def TaskService.delete_task (s : Store) (task_id : Nat) (user : Nat) :
    Except ServiceError Store :=
  match TaskService.get_task_by_id s task_id user with
  | .error e => .error e
  | .ok task => .ok (TaskRepository.delete s task)

/-- Store state after a `create_task` call: a raised exception propagates
before any repository write, so a failing call leaves the store as it was. -/
def TaskService.create_task_state (s : Store) (now : Nat) (user : Nat)
    (title : List Char) (description : List Char) : Store :=
  match TaskService.create_task s now user title description with
  | .ok r => r.2
  | .error _ => s

/-- Store state after an `update_task` call (failures mutate nothing). -/
def TaskService.update_task_state (s : Store) (task_id : Nat) (user : Nat)
    (title? description? : Option (List Char)) : Store :=
  match TaskService.update_task s task_id user title? description? with
  | .ok r => r.2
  | .error _ => s

/-- Store state after a `delete_task` call (failures mutate nothing). -/
def TaskService.delete_task_state (s : Store) (task_id : Nat) (user : Nat) :
    Store :=
  match TaskService.delete_task s task_id user with
  | .ok s2 => s2
  | .error _ => s

/-! Helper lemmas about trimming. -/

/-- Dropping a prefix of `p`-satisfying elements twice is the same as once. -/
theorem dropWhile_idem (p : Char → Bool) (l : List Char) :
    (l.dropWhile p).dropWhile p = l.dropWhile p := by
  cases h : l.dropWhile p with
  | nil => simp
  | cons a t =>
      have hpa : p a = false := by
        have hh := List.head?_dropWhile_not p l
        rw [h] at hh
        simpa using hh
      rw [List.dropWhile_cons_of_neg]
      simp [hpa]

theorem lstrip_idem (s : List Char) : lstrip (lstrip s) = lstrip s :=
  dropWhile_idem isPySpace s

theorem rstrip_idem (s : List Char) : rstrip (rstrip s) = rstrip s := by
  unfold rstrip
  rw [List.reverse_reverse, dropWhile_idem]

/-- The right trim of a list is one of its prefixes. -/
theorem rstrip_front (u : List Char) : rstrip u <+: u := by
  have hsuf : (rstrip u).reverse <:+ u.reverse := by
    unfold rstrip
    rw [List.reverse_reverse]
    exact List.dropWhile_suffix isPySpace
  exact List.reverse_suffix.mp hsuf

/-- Left-trimming commutes away after a full left trim followed by a right
trim: the head survived the left trim, so it is not whitespace. -/
theorem lstrip_rstrip_lstrip (s : List Char) :
    lstrip (rstrip (lstrip s)) = rstrip (lstrip s) := by
  have hu : lstrip (lstrip s) = lstrip s := lstrip_idem s
  have hpre : rstrip (lstrip s) <+: lstrip s := rstrip_front (lstrip s)
  cases h : rstrip (lstrip s) with
  | nil => rfl
  | cons a t =>
      rw [h] at hpre
      obtain ⟨r, hr⟩ := hpre
      have hua : lstrip s = a :: (t ++ r) := by
        rw [← hr]; simp
      have hpa : isPySpace a = false := by
        by_contra hcon
        have hpa1 : isPySpace a = true := by
          simpa using hcon
        have hdrop : lstrip (lstrip s) = (t ++ r).dropWhile isPySpace := by
          rw [hua]
          unfold lstrip
          rw [List.dropWhile_cons_of_pos hpa1]
        have hlen : ((t ++ r).dropWhile isPySpace).length ≤ (t ++ r).length :=
          (List.dropWhile_sublist isPySpace).length_le
        rw [hu, hua] at hdrop
        rw [← hdrop] at hlen
        simp only [List.length_cons] at hlen
        omega
      unfold lstrip
      rw [List.dropWhile_cons_of_neg]
      simp [hpa]

/-- Python's `strip` is idempotent: a stripped string is already stripped. -/
theorem strip_idem (s : List Char) : strip (strip s) = strip s := by
  unfold strip
  rw [lstrip_rstrip_lstrip, rstrip_idem]

/-- Stripping never lengthens a string. -/
theorem strip_length_le (s : List Char) : (strip s).length ≤ s.length := by
  unfold strip rstrip lstrip
  calc ((s.dropWhile isPySpace).reverse.dropWhile isPySpace).reverse.length
      = ((s.dropWhile isPySpace).reverse.dropWhile isPySpace).length := by
        rw [List.length_reverse]
    _ ≤ (s.dropWhile isPySpace).reverse.length :=
        (List.dropWhile_sublist isPySpace).length_le
    _ = (s.dropWhile isPySpace).length := by rw [List.length_reverse]
    _ ≤ s.length := (List.dropWhile_sublist isPySpace).length_le

theorem strip_nil : strip ([] : List Char) = [] := rfl

/-! Helper lemmas about the row store. -/

/-- Rewriting the row that a lookup returned makes the new row the lookup
result, provided the new row keeps the id. -/
theorem find?_map_update (l : List Task) (tid : Nat) (task newTask : Task)
    (hid : newTask.id = task.id)
    (h : l.find? (fun t => t.id == tid) = some task) :
    (l.map (fun t => if t.id == task.id then newTask else t)).find?
      (fun t => t.id == tid) = some newTask := by
  have htid : task.id = tid := by
    have := List.find?_some h
    simpa using this
  induction l with
  | nil => simp at h
  | cons x xs ih =>
      rw [List.map_cons]
      by_cases hx : x.id = tid
      · have hfound : task = x := by
          rw [List.find?_cons_of_pos] at h
          · exact (Option.some_inj.mp h).symm
          · simpa using hx
        rw [if_pos (by simp [hfound, htid, hx])]
        rw [List.find?_cons_of_pos]
        simp [hid, htid]
      · rw [if_neg (by simp [htid, hx])]
        rw [List.find?_cons_of_neg _ (by simpa using hx)]
        rw [List.find?_cons_of_neg _ (by simpa using hx)] at h
        exact ih h

/-- After filtering out the id of the found row, the lookup fails. -/
theorem find?_filter_delete (l : List Task) (tid : Nat) (task : Task)
    (h : l.find? (fun t => t.id == tid) = some task) :
    (l.filter (fun t => !(t.id == task.id))).find? (fun t => t.id == tid) = none := by
  have htid : task.id = tid := by
    have := List.find?_some h
    simpa using this
  rw [List.find?_eq_none]
  intro x hx
  have := List.of_mem_filter hx
  simp only [htid] at this
  simpa using this

/-- The stored description expression of `create_task` is always a strip. -/
theorem strip_or_empty (d : List Char) :
    (if d.isEmpty then [] else strip d) = strip d := by
  cases d with
  | nil => simp [strip_nil]
  | cons a t => simp

/-- A run of a single non-whitespace character is unchanged by `strip`. -/
theorem strip_replicate_of_not_space (n : Nat) (c : Char)
    (hc : isPySpace c = false) :
    strip (List.replicate n c) = List.replicate n c := by
  cases n with
  | zero => rfl
  | succ k =>
      unfold strip lstrip rstrip
      rw [List.replicate_succ, List.dropWhile_cons_of_neg (by simp [hc]),
          ← List.replicate_succ, List.reverse_replicate, List.replicate_succ,
          List.dropWhile_cons_of_neg (by simp [hc]), ← List.replicate_succ,
          List.reverse_replicate]

/-! Concrete fixtures used by closed theorems below. -/

def taskA : Task :=
  { id := 1, user := 1, title := "Comprar leche".data,
    description := "x".data, created_at := 5 }

def storeA : Store := { tasks := [taskA], nextId := 2 }

def storeEmpty : Store := { tasks := [], nextId := 1 }

/-! Claim theorems. -/

/-- C1: for every stored task and every requester other than the task's
owner, `get_task_by_id`, `update_task` and `delete_task` all fail with
`PermissionDenied` (the Forbidden kind), and the failed call leaves the
store — hence the task's title, description, owner, created_at and
existence — unchanged. -/
theorem non_owner_operations_forbidden (s : Store) (tid u : Nat) (task : Task)
    (title? description? : Option (List Char))
    (hget : TaskRepository.get_by_id s tid = some task)
    (hne : task.user ≠ u) :
    TaskService.get_task_by_id s tid u =
        .error (.permissionDenied "No tienes permisos para acceder a esta tarea") ∧
    TaskService.update_task s tid u title? description? =
        .error (.permissionDenied "No tienes permisos para acceder a esta tarea") ∧
    TaskService.delete_task s tid u =
        .error (.permissionDenied "No tienes permisos para acceder a esta tarea") ∧
    TaskService.update_task_state s tid u title? description? = s ∧
    TaskService.delete_task_state s tid u = s := by
  have hchk : check_task_ownership task u =
      .error (.permissionDenied "No tienes permisos para acceder a esta tarea") := by
    unfold check_task_ownership
    rw [if_pos (by simpa using hne)]
  have hgot : TaskService.get_task_by_id s tid u =
      .error (.permissionDenied "No tienes permisos para acceder a esta tarea") := by
    unfold TaskService.get_task_by_id
    rw [hget]
    simp [hchk]
  have hupd : TaskService.update_task s tid u title? description? =
      .error (.permissionDenied "No tienes permisos para acceder a esta tarea") := by
    unfold TaskService.update_task
    rw [hgot]
  have hdel : TaskService.delete_task s tid u =
      .error (.permissionDenied "No tienes permisos para acceder a esta tarea") := by
    unfold TaskService.delete_task
    rw [hgot]
  refine ⟨hgot, hupd, hdel, ?_, ?_⟩
  · unfold TaskService.update_task_state
    rw [hupd]
  · unfold TaskService.delete_task_state
    rw [hdel]

/-- Witness for C1 at a concrete input: task 1 is owned by user 1, and
user 2 is refused all three operations without any change to the store. -/
theorem non_owner_operations_forbidden_witness :
    TaskRepository.get_by_id storeA 1 = some taskA ∧ taskA.user ≠ 2 ∧
    (TaskService.get_task_by_id storeA 1 2 =
        .error (.permissionDenied "No tienes permisos para acceder a esta tarea") ∧
     TaskService.update_task storeA 1 2 none (some "y".data) =
        .error (.permissionDenied "No tienes permisos para acceder a esta tarea") ∧
     TaskService.delete_task storeA 1 2 =
        .error (.permissionDenied "No tienes permisos para acceder a esta tarea") ∧
     TaskService.update_task_state storeA 1 2 none (some "y".data) = storeA ∧
     TaskService.delete_task_state storeA 1 2 = storeA) :=
  ⟨rfl, by decide,
   non_owner_operations_forbidden storeA 1 2 taskA none (some "y".data) rfl
     (by decide)⟩

/-- C2 (code bug): for an id not present in the store, `get_task_by_id`
raises `ValidationError("Tarea no encontrada")` — the same exception class
(and hence the same `invalidInput` kind, mapped by
`handle_service_exceptions` to the same HTTP 400) as field-validation
failures, not a distinct NotFound kind mapped to 404. -/
theorem missing_task_error_is_validation_kind :
    TaskService.get_task_by_id storeEmpty 7 1 =
        .error (.validationError "Tarea no encontrada") ∧
    (ServiceError.validationError "Tarea no encontrada").kind =
        ErrKind.invalidInput ∧
    handleServiceExceptionsStatus (.validationError "Tarea no encontrada") = 400 ∧
    (ServiceError.validationError "Tarea no encontrada").kind =
        (ServiceError.validationError "El título es requerido").kind ∧
    ¬ IsNotFoundKind (.validationError "Tarea no encontrada") :=
  ⟨rfl, rfl, rfl, rfl, by decide⟩

/-- C5: for every owner, title of trimmed length between 3 and 200 and
description of length at most 1000, `create_task` succeeds and the returned
task carries the trimmed title, the trimmed (or empty) description and the
given owner. -/
theorem create_valid_input_ok (s : Store) (now u : Nat) (title d : List Char)
    (ht3 : 3 ≤ (strip title).length) (ht200 : (strip title).length ≤ 200)
    (hd : d.length ≤ 1000) :
    TaskService.create_task s now u title d =
      .ok (TaskRepository.create s now u (strip title)
             (if d.isEmpty then [] else strip d)) ∧
    (TaskRepository.create s now u (strip title)
       (if d.isEmpty then [] else strip d)).1.title = strip title ∧
    (TaskRepository.create s now u (strip title)
       (if d.isEmpty then [] else strip d)).1.description = strip d ∧
    (TaskRepository.create s now u (strip title)
       (if d.isEmpty then [] else strip d)).1.user = u := by
  have hstne : (strip title).isEmpty = false := by
    cases h : strip title with
    | nil => rw [h] at ht3; simp at ht3
    | cons a t => rfl
  have htne : title.isEmpty = false := by
    cases h : title with
    | nil =>
        rw [h] at ht3
        rw [strip_nil] at ht3
        simp at ht3
    | cons a t => rfl
  have hval : validate_task_data title d = .ok () := by
    unfold validate_task_data
    rw [if_neg (by simp [htne, hstne]), if_neg (by omega), if_neg (by omega),
        if_neg (by simp; intro _; omega)]
  refine ⟨?_, rfl, ?_, rfl⟩
  · unfold TaskService.create_task
    rw [hval]
  · rw [strip_or_empty]
    rfl

/-- Witness for C5 at a concrete input. -/
theorem create_valid_input_ok_witness :
    3 ≤ (strip "Comprar leche".data).length ∧
    (strip "Comprar leche".data).length ≤ 200 ∧
    ("2 por ciento".data).length ≤ 1000 ∧
    (TaskService.create_task storeEmpty 9 1 "Comprar leche".data "2 por ciento".data =
      .ok (TaskRepository.create storeEmpty 9 1 (strip "Comprar leche".data)
             (if ("2 por ciento".data).isEmpty then []
              else strip "2 por ciento".data)) ∧
     (TaskRepository.create storeEmpty 9 1 (strip "Comprar leche".data)
        (if ("2 por ciento".data).isEmpty then []
         else strip "2 por ciento".data)).1.title = strip "Comprar leche".data ∧
     (TaskRepository.create storeEmpty 9 1 (strip "Comprar leche".data)
        (if ("2 por ciento".data).isEmpty then []
         else strip "2 por ciento".data)).1.description =
           strip "2 por ciento".data ∧
     (TaskRepository.create storeEmpty 9 1 (strip "Comprar leche".data)
        (if ("2 por ciento".data).isEmpty then []
         else strip "2 por ciento".data)).1.user = 1) :=
  ⟨by decide, by decide, by decide,
   create_valid_input_ok storeEmpty 9 1 "Comprar leche".data "2 por ciento".data
     (by decide) (by decide) (by decide)⟩

/-- C6: for every title of trimmed length below 3 or above 200 (the empty
and whitespace-only cases included), `create_task` fails with a
`ValidationError` (the InvalidInput kind) and the store is exactly as it
was before the call. -/
theorem create_invalid_title_rejected (s : Store) (now u : Nat)
    (title d : List Char)
    (h : (strip title).length < 3 ∨ 200 < (strip title).length) :
    (∃ m, TaskService.create_task s now u title d =
            .error (.validationError m)) ∧
    TaskService.create_task_state s now u title d = s := by
  have hval : ∃ m, validate_task_data title d = .error (.validationError m) := by
    unfold validate_task_data
    by_cases h1 : (title.isEmpty || (strip title).isEmpty) = true
    · rw [if_pos h1]
      exact ⟨_, rfl⟩
    · rw [if_neg h1]
      by_cases h2 : (strip title).length < 3
      · rw [if_pos h2]
        exact ⟨_, rfl⟩
      · rw [if_neg h2]
        have h3 : (strip title).length > 200 := by omega
        rw [if_pos h3]
        exact ⟨_, rfl⟩
  obtain ⟨m, hm⟩ := hval
  have hfail : TaskService.create_task s now u title d =
      .error (.validationError m) := by
    unfold TaskService.create_task
    rw [hm]
  refine ⟨⟨m, hfail⟩, ?_⟩
  unfold TaskService.create_task_state
  rw [hfail]

/-- Witness for C6 at a concrete input: a two-character title. -/
theorem create_invalid_title_rejected_witness :
    ((strip "ab".data).length < 3 ∨ 200 < (strip "ab".data).length) ∧
    ((∃ m, TaskService.create_task storeA 9 1 "ab".data "d".data =
             .error (.validationError m)) ∧
     TaskService.create_task_state storeA 9 1 "ab".data "d".data = storeA) :=
  ⟨by decide,
   create_invalid_title_rejected storeA 9 1 "ab".data "d".data (by decide)⟩

/-! Further helpers: lookups after a row update or delete, and inversion
of a successful fetch. -/

/-- Looking up the updated row finds the updated row. -/
theorem get_by_id_update (s : Store) (tid : Nat) (task : Task)
    (title? description? : Option (List Char))
    (h : TaskRepository.get_by_id s tid = some task) :
    TaskRepository.get_by_id (TaskRepository.update s task title? description?).2 tid
      = some (TaskRepository.update s task title? description?).1 := by
  have h' : s.tasks.find? (fun t => t.id == tid) = some task := h
  exact find?_map_update s.tasks tid task _ rfl h'

/-- Looking up a deleted row fails. -/
theorem get_by_id_delete (s : Store) (tid : Nat) (task : Task)
    (h : TaskRepository.get_by_id s tid = some task) :
    TaskRepository.get_by_id (TaskRepository.delete s task) tid = none := by
  have h' : s.tasks.find? (fun t => t.id == tid) = some task := h
  exact find?_filter_delete s.tasks tid task h'

/-- A successful ownership check for the owner. -/
theorem check_task_ownership_owner (task : Task) (u : Nat) (h : task.user = u) :
    check_task_ownership task u = .ok () := by
  unfold check_task_ownership
  rw [if_neg (by simp [h])]

/-- Fetching an existing task as its owner succeeds. -/
theorem get_task_by_id_owner (s : Store) (tid u : Nat) (task : Task)
    (hget : TaskRepository.get_by_id s tid = some task)
    (hown : task.user = u) :
    TaskService.get_task_by_id s tid u = .ok task := by
  unfold TaskService.get_task_by_id
  rw [hget]
  simp [check_task_ownership_owner task u hown]

/-- A successful fetch means the row was found and the requester owns it. -/
theorem get_task_by_id_ok (s : Store) (tid u : Nat) (task : Task)
    (h : TaskService.get_task_by_id s tid u = .ok task) :
    TaskRepository.get_by_id s tid = some task ∧ task.user = u := by
  cases hg : TaskRepository.get_by_id s tid with
  | none =>
      rw [TaskService.get_task_by_id, hg] at h
      simp at h
  | some t =>
      by_cases he : t.user = u
      · rw [get_task_by_id_owner s tid u t hg he] at h
        injection h with h2
        subst h2
        exact ⟨rfl, he⟩
      · have hchk : check_task_ownership t u =
            .error (.permissionDenied "No tienes permisos para acceder a esta tarea") := by
          unfold check_task_ownership
          rw [if_pos (by simpa using he)]
        have hbad : TaskService.get_task_by_id s tid u =
            .error (.permissionDenied "No tienes permisos para acceder a esta tarea") := by
          unfold TaskService.get_task_by_id
          rw [hg]
          simp [hchk]
        rw [hbad] at h
        simp at h

/-- When validation succeeds, the description was empty or within the
1000-character bound. -/
theorem validate_ok_description (title d : List Char)
    (h : validate_task_data title d = .ok ()) :
    d = [] ∨ d.length ≤ 1000 := by
  unfold validate_task_data at h
  split at h
  · simp at h
  · split at h
    · simp at h
    · split at h
      · simp at h
      · split at h
        · simp at h
        · rename_i h4
          simp only [Bool.and_eq_true, Bool.not_eq_true', decide_eq_true_eq,
            not_and, not_lt] at h4
          cases hd : d.isEmpty with
          | true => exact Or.inl (by simpa using hd)
          | false => exact Or.inr (h4 hd)

/-- C7: for a task owned by the requester, an update supplying only a
description changes only the description field: the returned and re-stored
task keeps the id, owner, title and created_at, and carries the stripped
new description. -/
theorem update_description_only_frame (s : Store) (tid u : Nat) (task : Task)
    (d : List Char)
    (hget : TaskRepository.get_by_id s tid = some task)
    (hown : task.user = u) :
    TaskService.update_task s tid u none (some d) =
      .ok (TaskRepository.update s task none (some (strip d))) ∧
    (TaskRepository.update s task none (some (strip d))).1.id = task.id ∧
    (TaskRepository.update s task none (some (strip d))).1.user = task.user ∧
    (TaskRepository.update s task none (some (strip d))).1.title = task.title ∧
    (TaskRepository.update s task none (some (strip d))).1.created_at =
        task.created_at ∧
    (TaskRepository.update s task none (some (strip d))).1.description = strip d ∧
    TaskRepository.get_by_id (TaskRepository.update s task none (some (strip d))).2
        tid = some (TaskRepository.update s task none (some (strip d))).1 := by
  have hgot := get_task_by_id_owner s tid u task hget hown
  refine ⟨?_, rfl, rfl, rfl, rfl, rfl, get_by_id_update s tid task _ _ hget⟩
  unfold TaskService.update_task
  rw [hgot]
  simp

/-- Witness for C7 at a concrete input. -/
theorem update_description_only_frame_witness :
    TaskRepository.get_by_id storeA 1 = some taskA ∧ taskA.user = 1 ∧
    (TaskService.update_task storeA 1 1 none (some " nueva ".data) =
       .ok (TaskRepository.update storeA taskA none (some (strip " nueva ".data))) ∧
     (TaskRepository.update storeA taskA none (some (strip " nueva ".data))).1.id =
        taskA.id ∧
     (TaskRepository.update storeA taskA none (some (strip " nueva ".data))).1.user =
        taskA.user ∧
     (TaskRepository.update storeA taskA none (some (strip " nueva ".data))).1.title =
        taskA.title ∧
     (TaskRepository.update storeA taskA none
        (some (strip " nueva ".data))).1.created_at = taskA.created_at ∧
     (TaskRepository.update storeA taskA none
        (some (strip " nueva ".data))).1.description = strip " nueva ".data ∧
     TaskRepository.get_by_id
        (TaskRepository.update storeA taskA none (some (strip " nueva ".data))).2 1 =
       some (TaskRepository.update storeA taskA none (some (strip " nueva ".data))).1) :=
  ⟨rfl, rfl,
   update_description_only_frame storeA 1 1 taskA " nueva ".data rfl rfl⟩

/-- C10: for a task owned by the requester, an update supplying neither
field succeeds, re-stores the task with every field unchanged, and returns
exactly the stored task. -/
theorem update_noop_identity (s : Store) (tid u : Nat) (task : Task)
    (hget : TaskRepository.get_by_id s tid = some task)
    (hown : task.user = u) :
    TaskService.update_task s tid u none none =
      .ok (TaskRepository.update s task none none) ∧
    (TaskRepository.update s task none none).1 = task ∧
    TaskRepository.get_by_id (TaskRepository.update s task none none).2 tid =
      some task := by
  have hgot := get_task_by_id_owner s tid u task hget hown
  have hid : (TaskRepository.update s task none none).1 = task := rfl
  refine ⟨?_, hid, ?_⟩
  · unfold TaskService.update_task
    rw [hgot]
    simp
  · rw [get_by_id_update s tid task none none hget, hid]

/-- Witness for C10 at a concrete input. -/
theorem update_noop_identity_witness :
    TaskRepository.get_by_id storeA 1 = some taskA ∧ taskA.user = 1 ∧
    (TaskService.update_task storeA 1 1 none none =
       .ok (TaskRepository.update storeA taskA none none) ∧
     (TaskRepository.update storeA taskA none none).1 = taskA ∧
     TaskRepository.get_by_id (TaskRepository.update storeA taskA none none).2 1 =
       some taskA) :=
  ⟨rfl, rfl, update_noop_identity storeA 1 1 taskA rfl rfl⟩

/-! Description invariants and the fixtures with over-long descriptions. -/

/-- A stored description that is already stripped. -/
def DescTrimmed (t : Task) : Prop := strip t.description = t.description

/-- The spec's stored-description invariant: at most 1000 characters and
trimmed (the empty string is trivially trimmed). -/
def DescInvariant (t : Task) : Prop :=
  t.description.length ≤ 1000 ∧ DescTrimmed t

instance (t : Task) : Decidable (DescTrimmed t) := by
  unfold DescTrimmed; infer_instance

instance (t : Task) : Decidable (DescInvariant t) := by
  unfold DescInvariant; exact instDecidableAnd

def taskB : Task :=
  { id := 1, user := 1, title := "Tarea uno".data,
    description := "x".data, created_at := 5 }

def storeB : Store := { tasks := [taskB], nextId := 2 }

def longB : List Char := List.replicate 1001 'a'

def taskC : Task :=
  { id := 1, user := 1, title := "Tarea dos".data,
    description := [], created_at := 3 }

def storeC : Store := { tasks := [taskC], nextId := 2 }

def longC : List Char := List.replicate 1010 'b'

/-- Counterexample to C3: the owner updates only the description with a
1001-character value and the call succeeds — no validation runs, nothing is
rejected, and the over-long description is stored. -/
theorem update_without_title_skips_validation_cex :
    (TaskService.update_task storeB 1 1 none (some longB)).toOption.map
        (fun r => (r.1.description.length,
                   r.2.tasks.map (fun t => t.description.length)))
      = some (1001, [1001]) := by
  have hstrip : strip longB = longB :=
    strip_replicate_of_not_space 1001 'a' (by decide)
  have hlen : longB.length = 1001 := by
    show (List.replicate 1001 'a').length = 1001
    rw [List.length_replicate]
  have hgot : TaskService.get_task_by_id storeB 1 1 = .ok taskB :=
    get_task_by_id_owner storeB 1 1 taskB rfl rfl
  unfold TaskService.update_task
  rw [hgot]
  simp [TaskRepository.update, hstrip, hlen, storeB, taskB, Except.toOption]

/-- C3 (amended): when the title argument is absent, `update_task` runs no
validation at all — any description, of any length, is accepted, stripped
and handed to the store. -/
theorem update_without_title_skips_validation (s : Store) (tid u : Nat)
    (task : Task) (d : List Char)
    (hget : TaskRepository.get_by_id s tid = some task)
    (hown : task.user = u) :
    TaskService.update_task s tid u none (some d) =
      .ok (TaskRepository.update s task none (some (strip d))) ∧
    (TaskRepository.update s task none (some (strip d))).1.description =
      strip d := by
  have hgot := get_task_by_id_owner s tid u task hget hown
  refine ⟨?_, rfl⟩
  unfold TaskService.update_task
  rw [hgot]
  simp

/-- Witness for the amended C3 at a concrete input. -/
theorem update_without_title_skips_validation_witness :
    TaskRepository.get_by_id storeB 1 = some taskB ∧ taskB.user = 1 ∧
    (TaskService.update_task storeB 1 1 none (some " otra ".data) =
       .ok (TaskRepository.update storeB taskB none (some (strip " otra ".data))) ∧
     (TaskRepository.update storeB taskB none
        (some (strip " otra ".data))).1.description = strip " otra ".data) :=
  ⟨rfl, rfl,
   update_without_title_skips_validation storeB 1 1 taskB " otra ".data rfl rfl⟩

/-- Counterexample to C4: a store satisfying the description invariant, on
which one Service operation (`update_task` by the owner, title absent)
produces a store whose only task has a 1010-character description. -/
theorem description_invariant_violated_cex :
    (∀ t ∈ storeC.tasks, DescInvariant t) ∧
    (TaskService.update_task storeC 1 1 none (some longC)).toOption.map
        (fun r => r.2.tasks.map (fun t => t.description.length)) = some [1010] := by
  constructor
  · decide
  · have hstrip : strip longC = longC :=
      strip_replicate_of_not_space 1010 'b' (by decide)
    have hlen : longC.length = 1010 := by
      show (List.replicate 1010 'b').length = 1010
      rw [List.length_replicate]
    have hgot : TaskService.get_task_by_id storeC 1 1 = .ok taskC :=
      get_task_by_id_owner storeC 1 1 taskC rfl rfl
    unfold TaskService.update_task
    rw [hgot]
    simp [TaskRepository.update, hstrip, hlen, storeC, taskC, Except.toOption]

/-- Shape of a successful `update_task`: the fetched task is rewritten in
the store with some title argument and the stripped supplied description. -/
theorem update_task_ok_shape (s : Store) (tid u : Nat)
    (title? description? : Option (List Char)) (r : Task × Store)
    (h : TaskService.update_task s tid u title? description? = .ok r) :
    ∃ task t2, TaskService.get_task_by_id s tid u = .ok task ∧
      r = TaskRepository.update s task t2 (description?.map strip) := by
  unfold TaskService.update_task at h
  cases hG : TaskService.get_task_by_id s tid u with
  | error e =>
      rw [hG] at h
      simp at h
  | ok task =>
      rw [hG] at h
      cases title? with
      | none =>
          refine ⟨task, none, rfl, ?_⟩
          have h2 : (Except.ok
              (TaskRepository.update s task none (description?.map strip)) :
                Except ServiceError (Task × Store)) = .ok r := h
          injection h2 with h3
          exact h3.symm
      | some ti =>
          have h2 : (match validate_task_data ti
                (descOrStored description? task.description) with
              | .error e => (Except.error e : Except ServiceError (Task × Store))
              | .ok _ => .ok (TaskRepository.update s task (some (strip ti))
                    (description?.map strip))) = .ok r := h
          cases hv : validate_task_data ti (descOrStored description? task.description) with
          | error e =>
              rw [hv] at h2
              simp at h2
          | ok a =>
              rw [hv] at h2
              injection h2 with h3
              exact ⟨task, some (strip ti), rfl, h3.symm⟩

/-- All rows stay trimmed after a repository update whose description
argument is a strip (or absent, for a task that was trimmed). -/
theorem update_store_trimmed (s : Store) (task : Task)
    (t? d? : Option (List Char))
    (hinv : ∀ t ∈ s.tasks, DescTrimmed t) (htask : DescTrimmed task) :
    ∀ t ∈ (TaskRepository.update s task t? (d?.map strip)).2.tasks,
      DescTrimmed t := by
  intro t ht
  simp only [TaskRepository.update] at ht
  obtain ⟨x, hx, hxt⟩ := List.mem_map.mp ht
  by_cases hxi : (x.id == task.id) = true
  · rw [if_pos hxi] at hxt
    subst hxt
    cases d? with
    | none => exact htask
    | some d0 =>
        unfold DescTrimmed
        simp [strip_idem]
  · rw [if_neg hxi] at hxt
    exact hxt ▸ hinv x hx

/-- C4 (amended): starting from a store whose descriptions all satisfy the
invariant, `create_task` preserves the full invariant (length at most 1000
and trimmed-or-empty), while `update_task` preserves only trimmed-or-empty
— it can store a description longer than 1000 characters when the title
argument is absent. -/
theorem description_invariant_amended (s : Store) (now u tid : Nat)
    (title d : List Char) (title? description? : Option (List Char))
    (hinv : ∀ t ∈ s.tasks, DescInvariant t) :
    (∀ t ∈ (TaskService.create_task_state s now u title d).tasks,
        DescInvariant t) ∧
    (∀ t ∈ (TaskService.update_task_state s tid u title? description?).tasks,
        DescTrimmed t) := by
  constructor
  · cases hv : validate_task_data title d with
    | error e =>
        have hstate : TaskService.create_task_state s now u title d = s := by
          unfold TaskService.create_task_state TaskService.create_task
          rw [hv]
        rw [hstate]
        exact hinv
    | ok a =>
        cases a
        have hstate : TaskService.create_task_state s now u title d =
            (TaskRepository.create s now u (strip title)
               (if d.isEmpty then [] else strip d)).2 := by
          unfold TaskService.create_task_state TaskService.create_task
          rw [hv]
        rw [hstate]
        intro t ht
        simp only [TaskRepository.create, List.mem_append, List.mem_singleton] at ht
        rcases ht with ht | ht
        · exact hinv t ht
        · subst ht
          constructor
          · simp only [strip_or_empty]
            rcases validate_ok_description title d hv with hnil | hle
            · subst hnil
              simp [strip_nil]
            · exact Nat.le_trans (strip_length_le d) hle
          · unfold DescTrimmed
            simp only [strip_or_empty]
            exact strip_idem d
  · intro t ht
    unfold TaskService.update_task_state at ht
    cases hu : TaskService.update_task s tid u title? description? with
    | error e =>
        rw [hu] at ht
        exact (hinv t ht).2
    | ok r =>
        rw [hu] at ht
        obtain ⟨task, t2, hG, hr⟩ :=
          update_task_ok_shape s tid u title? description? r hu
        obtain ⟨hgetid, hown⟩ := get_task_by_id_ok s tid u task hG
        have htask : DescTrimmed task :=
          (hinv task (List.mem_of_find?_eq_some hgetid)).2
        subst hr
        exact update_store_trimmed s task t2 description?
          (fun t2 ht2 => (hinv t2 ht2).2) htask t ht

/-- Witness for the amended C4 at concrete inputs. -/
theorem description_invariant_amended_witness :
    (∀ t ∈ storeA.tasks, DescInvariant t) ∧
    ((∀ t ∈ (TaskService.create_task_state storeA 9 1 "Nueva tarea".data
               " d ".data).tasks, DescInvariant t) ∧
     (∀ t ∈ (TaskService.update_task_state storeA 1 1 none
               (some " e ".data)).tasks, DescTrimmed t)) :=
  ⟨by decide,
   description_invariant_amended storeA 9 1 1 "Nueva tarea".data " d ".data
     none (some " e ".data) (by decide)⟩

/-- Store left after deleting the only task of `storeA`. -/
def storeADel : Store := { tasks := [], nextId := 2 }

/-- Counterexample to C8: after a successful owner delete, the subsequent
`get_task_by_id` fails with `ValidationError("Tarea no encontrada")`, which
the API layer maps to HTTP 400 — not a NotFound kind mapped to 404. -/
theorem delete_then_get_not_notfound_cex :
    TaskService.delete_task storeA 1 1 = .ok storeADel ∧
    TaskService.get_task_by_id storeADel 1 1 =
      .error (.validationError "Tarea no encontrada") ∧
    handleServiceExceptionsStatus (.validationError "Tarea no encontrada") = 400 ∧
    ¬ IsNotFoundKind (.validationError "Tarea no encontrada") :=
  ⟨rfl, rfl, rfl, by decide⟩

/-- C8 (amended): after `delete_task(id, owner)` succeeds the task no
longer exists in the store, and a subsequent `get_task_by_id(id, owner)`
fails — with `ValidationError("Tarea no encontrada")` (the InvalidInput
kind), the code's not-found failure. -/
theorem delete_terminality (s : Store) (tid u : Nat) (task : Task)
    (hget : TaskRepository.get_by_id s tid = some task)
    (hown : task.user = u) :
    TaskService.delete_task s tid u = .ok (TaskRepository.delete s task) ∧
    TaskRepository.get_by_id (TaskRepository.delete s task) tid = none ∧
    TaskService.get_task_by_id (TaskRepository.delete s task) tid u =
      .error (.validationError "Tarea no encontrada") := by
  have hgot := get_task_by_id_owner s tid u task hget hown
  have hnone := get_by_id_delete s tid task hget
  refine ⟨?_, hnone, ?_⟩
  · unfold TaskService.delete_task
    rw [hgot]
  · unfold TaskService.get_task_by_id
    rw [hnone]

/-- Witness for the amended C8 at a concrete input. -/
theorem delete_terminality_witness :
    TaskRepository.get_by_id storeA 1 = some taskA ∧ taskA.user = 1 ∧
    (TaskService.delete_task storeA 1 1 = .ok (TaskRepository.delete storeA taskA) ∧
     TaskRepository.get_by_id (TaskRepository.delete storeA taskA) 1 = none ∧
     TaskService.get_task_by_id (TaskRepository.delete storeA taskA) 1 1 =
       .error (.validationError "Tarea no encontrada")) :=
  ⟨rfl, rfl, delete_terminality storeA 1 1 taskA rfl rfl⟩

/-- C9: `get_user_tasks` passes the repository result through unmodified;
that result contains exactly the tasks whose owner is the requested user
(as a permutation of the owner filter of the store) and is sorted by
created_at descending. -/
theorem get_user_tasks_filtered_sorted (s : Store) (u : Nat) :
    TaskService.get_user_tasks s u = TaskRepository.get_by_user s u ∧
    List.Perm (TaskService.get_user_tasks s u)
      (s.tasks.filter (fun t => t.user == u)) ∧
    List.Sorted byCreatedDesc (TaskService.get_user_tasks s u) ∧
    (∀ t ∈ TaskService.get_user_tasks s u, t.user = u) := by
  refine ⟨rfl, List.perm_insertionSort _ _, List.sorted_insertionSort _ _, ?_⟩
  intro t ht
  have hmem : t ∈ s.tasks.filter (fun t => t.user == u) :=
    (List.perm_insertionSort byCreatedDesc _).mem_iff.mp ht
  have := List.of_mem_filter hmem
  simpa using this

end TaskManager
